import Mathlib

/-!
Verification of the astraops DevOps client: a shallow embedding of the
convergence poller (WaitUntil), the Terminate deletion loop, the Resize and
CreateDb action dispatchers, and the structured-error formatter, together
with theorems settling the specified behavioural claims.

HTTP traffic is abstracted by the observable outcome of each request: either
a transport-level failure, or a response carrying a status code, a location
header, and a body seen through the two JSON decoders the client applies
(decode as a Database, decode as a structured error list). The poll loops
additionally produce an explicit event trace recording every interval sleep
and every fetch attempt, in order.
-/

namespace AstraOps

/-- StatusEnum mirrors the Go string type StatusEnum. -/
abbrev StatusEnum := String

def ACTIVE : StatusEnum := "ACTIVE"

def PENDING : StatusEnum := "PENDING"

def PREPARING : StatusEnum := "PREPARING"

def PREPARED : StatusEnum := "PREPARED"

def INITIALIZING : StatusEnum := "INITIALIZING"

def PARKED : StatusEnum := "PARKED"

def PARKING : StatusEnum := "PARKING"

def UNPARKING : StatusEnum := "UNPARKING"

def TERMINATED : StatusEnum := "TERMINATED"

def TERMINATING : StatusEnum := "TERMINATING"

def RESIZING : StatusEnum := "RESIZING"

def ERROR : StatusEnum := "ERROR"

def MAINTENANCE : StatusEnum := "MAINTENANCE"

def UNKNOWN : StatusEnum := "UNKNOWN"

/-- DatabaseInfo is some database meta data info. -/
structure DatabaseInfo where
  name : String
  keyspace : String
  cloudProvider : String
  tier : String
  capacityUnits : Int
  region : String
  user : String
  password : String
  additionalKeyspaces : List String
  deriving DecidableEq

/-- Storage contains the information about how much storage space a cluster has available. -/
structure Storage where
  nodeCount : Int
  replicationFactor : Int
  totalStorage : Int
  usedStorage : Int
  deriving DecidableEq

/-- Database is the returned data from the Astra DevOps API. -/
structure Database where
  id : String
  orgID : String
  ownerID : String
  info : DatabaseInfo
  creationTime : String
  terminationTime : String
  status : StatusEnum
  storage : Storage
  availableActions : List String
  message : String
  studioURL : String
  grafanaURL : String
  cqlshURL : String
  graphqlURL : String
  dataEndpointURL : String
  deriving DecidableEq

/-- Go zero value of DatabaseInfo. -/
def zeroDatabaseInfo : DatabaseInfo :=
  { name := "", keyspace := "", cloudProvider := "", tier := "", capacityUnits := 0,
    region := "", user := "", password := "", additionalKeyspaces := [] }

/-- Go zero value of Storage. -/
def zeroStorage : Storage :=
  { nodeCount := 0, replicationFactor := 0, totalStorage := 0, usedStorage := 0 }

/-- Go zero value of Database, as returned by the poller on timeout. -/
def zeroDatabase : Database :=
  { id := "", orgID := "", ownerID := "", info := zeroDatabaseInfo, creationTime := "",
    terminationTime := "", status := "", storage := zeroStorage, availableActions := [],
    message := "", studioURL := "", grafanaURL := "", cqlshURL := "", graphqlURL := "",
    dataEndpointURL := "" }

/-- Error is the structure used when the api has an error. -/
structure Error where
  id : Int
  message : String
  deriving DecidableEq

deriving instance DecidableEq for Except

/-- RespBody is an HTTP response body as seen through the two decoders the
client applies to bodies: decoding as a Database value and decoding as a
structured error response. -/
structure RespBody where
  asDatabase : Except String Database
  asErrors : Except String (List Error)
  deriving DecidableEq

/-- HttpResponse is the observable part of a response: status code, the
location header (empty string when absent), and the body. -/
structure HttpResponse where
  statusCode : Int
  location : String
  body : RespBody
  deriving DecidableEq

/-- FetchOutcome is the outcome of one HTTP request: a transport-level
error from client.Do, or a response. -/
inductive FetchOutcome where
  | transportErr (msg : String)
  | resp (r : HttpResponse)
  deriving DecidableEq

/-- FetchResult is the result of one FindDb call as seen by WaitUntil:
either a decoded Database or an error. -/
inductive FetchResult where
  | ok (db : Database)
  | err (msg : String)
  deriving DecidableEq

/-- PollEvent records one observable side effect of a poll loop: an
interval sleep of the given number of seconds, or a fetch attempt with its
zero-based attempt index. -/
inductive PollEvent where
  | sleep (seconds : Int)
  | fetch (attempt : Nat)
  deriving DecidableEq

/-- stringsJoin is Go strings.Join: empty list gives the empty string,
otherwise the first element followed by sep-prefixed remaining elements. -/
def stringsJoin (elems : List String) (sep : String) : String :=
  match elems with
  | [] => ""
  | e :: rest => rest.foldl (fun acc s => acc ++ sep ++ s) e

/-- FormatErrors puts the API errors into a well formatted text output:
each entry becomes "ID: <id> Text: \x27<message>\x27" and the entries are joined
by ", " in order. -/
def FormatErrors (es : List Error) : String :=
  stringsJoin (es.map (fun e => "ID: " ++ toString e.id ++ " Text: \x27" ++ e.message ++ "\x27")) ", "

/-- readErrorFromResponse decodes the response body as a structured error
response and renders the message the client produces from it, given the
actual status code and the expected status codes. -/
def readErrorFromResponse (body : RespBody) (statusCode : Int) (expectedCodes : List Int) : String :=
  match body.asErrors with
  | Except.error m =>
      "unable to decode error response with error: \x27" ++ m ++ "\x27. status code was " ++
        toString statusCode
  | Except.ok es =>
      let statusSuffix := if expectedCodes.length > 0 then "s" else ""
      let errorSuffix := if es.length > 0 then "s" else ""
      let formattedCodes := stringsJoin (expectedCodes.map toString) ", "
      "expected status code" ++ statusSuffix ++ " " ++ formattedCodes ++ " but had: " ++
        toString statusCode ++ " error with error" ++ errorSuffix ++ " - " ++ FormatErrors es

/-- FindDb returns the specified database: a transport error or a non-200
status code or a body that fails to decode as a Database all yield an
error; a 200 response with a decodable body yields the database. -/
def FindDb (doRes : FetchOutcome) (databaseID : String) : Except String Database :=
  match doRes with
  | FetchOutcome.transportErr m =>
      Except.error ("failed get database id " ++ databaseID ++ " with: " ++ m)
  | FetchOutcome.resp r =>
      if r.statusCode ≠ 200 then
        Except.error (readErrorFromResponse r.body r.statusCode [200])
      else
        match r.body.asDatabase with
        | Except.error m => Except.error ("unable to decode response with error: " ++ m)
        | Except.ok db => Except.ok db

/-- waitUntilLoop is the body of WaitUntil: in each remaining iteration it
sleeps, fetches, continues on a fetch error, returns the database when its
status matches, and otherwise continues; it returns none when the attempts
are exhausted. The attempt index i is the loop variable. -/
def waitUntilLoop (fetch : Nat → FetchResult) (intervalSeconds : Int) (status : StatusEnum)
    (i : Nat) : Nat → List PollEvent × Option Database
  | 0 => ([], none)
  | Nat.succ n =>
    match fetch i with
    | FetchResult.err _ =>
        (PollEvent.sleep intervalSeconds :: PollEvent.fetch i ::
          (waitUntilLoop fetch intervalSeconds status (i + 1) n).1,
         (waitUntilLoop fetch intervalSeconds status (i + 1) n).2)
    | FetchResult.ok db =>
        if db.status = status then
          ([PollEvent.sleep intervalSeconds, PollEvent.fetch i], some db)
        else
          (PollEvent.sleep intervalSeconds :: PollEvent.fetch i ::
            (waitUntilLoop fetch intervalSeconds status (i + 1) n).1,
           (waitUntilLoop fetch intervalSeconds status (i + 1) n).2)

/-- WaitUntil keeps checking the database for the requested status until it
is available, for at most tries attempts with an interval sleep before
every fetch; on exhaustion it returns the timeout error naming the id, the
target status and intervalSeconds * tries seconds. -/
def WaitUntil (fetch : Nat → FetchResult) (id : String) (tries intervalSeconds : Int)
    (status : StatusEnum) : List PollEvent × Except String Database :=
  match waitUntilLoop fetch intervalSeconds status 0 (Int.toNat tries) with
  | (tr, some db) => (tr, Except.ok db)
  | (tr, none) =>
      (tr, Except.error ("unable to find db id " ++ id ++ " with status " ++ status ++
        " after " ++ toString (intervalSeconds * tries) ++ " seconds"))

/-- pollTrace iv i k is the event trace of k completed poll iterations
starting at attempt index i: each iteration contributes one interval sleep
followed by one fetch attempt. -/
def pollTrace (intervalSeconds : Int) (i : Nat) : Nat → List PollEvent
  | 0 => []
  | Nat.succ k =>
      PollEvent.sleep intervalSeconds :: PollEvent.fetch i ::
        pollTrace intervalSeconds (i + 1) k

/-- countFetches counts the fetch attempts in a trace. -/
def countFetches : List PollEvent → Nat
  | [] => 0
  | PollEvent.sleep _ :: rest => countFetches rest
  | PollEvent.fetch _ :: rest => countFetches rest + 1

/-- countSleeps counts the interval sleeps in a trace. -/
def countSleeps : List PollEvent → Nat
  | [] => 0
  | PollEvent.sleep _ :: rest => countSleeps rest + 1
  | PollEvent.fetch _ :: rest => countSleeps rest

/-- sleepSeconds sums the seconds slept in a trace. -/
def sleepSeconds : List PollEvent → Int
  | [] => 0
  | PollEvent.sleep s :: rest => s + sleepSeconds rest
  | PollEvent.fetch _ :: rest => sleepSeconds rest

/-- missesStatus status r holds when a fetch result does not terminate the
WaitUntil loop: the fetch failed, or it returned a database whose status
differs from the target. -/
def missesStatus (status : StatusEnum) : FetchResult → Bool
  | FetchResult.ok db => if db.status = status then false else true
  | FetchResult.err _ => true

/-- terminateLoop is the deletion convergence loop of Terminate: in each
remaining iteration it sleeps and re-fetches the database; a transport
error aborts with an error; status code 401 is immediate success; a 200
body that fails to decode aborts with an error; a 200 database whose
status is TERMINATED or TERMINATING is immediate success, any other 200
status continues; every other status code updates lastResponse from the
decoded error body and continues. On exhaustion it reports the last
response and last status code. -/
def terminateLoop (fetch : Nat → FetchOutcome) (id : String) (intervalSeconds : Int)
    (i : Nat) (lastResponse : String) (lastStatusCode : Int) :
    Nat → List PollEvent × Except String Unit
  | 0 =>
      ([], Except.error ("delete of db " ++ id ++
        " not complete. Last response from finding db was \x27" ++ lastResponse ++
        "\x27 and last status code was " ++ toString lastStatusCode))
  | Nat.succ n =>
    match fetch i with
    | FetchOutcome.transportErr m =>
        ([PollEvent.sleep intervalSeconds, PollEvent.fetch i],
         Except.error ("failed get database id " ++ id ++ " with: " ++ m))
    | FetchOutcome.resp r =>
      if r.statusCode = 401 then
        ([PollEvent.sleep intervalSeconds, PollEvent.fetch i], Except.ok ())
      else if r.statusCode = 200 then
        match r.body.asDatabase with
        | Except.error m =>
            ([PollEvent.sleep intervalSeconds, PollEvent.fetch i],
             Except.error ("critical error trying to get status of database not deleted, unable to decode response with error: " ++ m))
        | Except.ok db =>
          if db.status = TERMINATED ∨ db.status = TERMINATING then
            ([PollEvent.sleep intervalSeconds, PollEvent.fetch i], Except.ok ())
          else
            (PollEvent.sleep intervalSeconds :: PollEvent.fetch i ::
              (terminateLoop fetch id intervalSeconds (i + 1) lastResponse r.statusCode n).1,
             (terminateLoop fetch id intervalSeconds (i + 1) lastResponse r.statusCode n).2)
      else
        (PollEvent.sleep intervalSeconds :: PollEvent.fetch i ::
          (terminateLoop fetch id intervalSeconds (i + 1)
            (readErrorFromResponse r.body r.statusCode [200, 401]) r.statusCode n).1,
         (terminateLoop fetch id intervalSeconds (i + 1)
           (readErrorFromResponse r.body r.statusCode [200, 401]) r.statusCode n).2)

/-- TerminateAsync issues the terminate request and classifies the
immediate response: 202 is accepted, anything else is an error. -/
def TerminateAsync (doRes : FetchOutcome) (id : String) (preparedStateOnly : Bool) :
    Except String Unit :=
  match doRes with
  | FetchOutcome.transportErr m =>
      Except.error ("failed to terminate database id " ++ id ++ " with: " ++ m)
  | FetchOutcome.resp r =>
      if r.statusCode ≠ 202 then Except.error (readErrorFromResponse r.body r.statusCode [202])
      else Except.ok ()

/-- Terminate deletes the database at the specified id and blocks until it
shows up as deleted or is removed from the system: on an accepted terminate
request it runs the deletion convergence loop with 30 tries at a 10 second
interval, with lastResponse and lastStatusCode starting at their Go zero
values. -/
def Terminate (doRes : FetchOutcome) (fetch : Nat → FetchOutcome) (id : String)
    (preparedStateOnly : Bool) : List PollEvent × Except String Unit :=
  match TerminateAsync doRes id preparedStateOnly with
  | Except.error m => ([], Except.error m)
  | Except.ok _ => terminateLoop fetch id 10 0 "" 0 30

/-- continuesTerm f holds when a fetch outcome lets the deletion loop
continue to the next attempt: a response whose status code is neither 401
nor 200, or a 200 response whose body decodes to a database in a
non-terminal status. -/
def continuesTerm : FetchOutcome → Bool
  | FetchOutcome.transportErr _ => false
  | FetchOutcome.resp r =>
    if r.statusCode = 401 then false
    else if r.statusCode = 200 then
      match r.body.asDatabase with
      | Except.error _ => false
      | Except.ok db =>
          if db.status = TERMINATED ∨ db.status = TERMINATING then false else true
    else true

/-- Resize changes the storage size for the database at the specified id:
any status code at most 299 is success, a larger code yields an error built
from the status code and the decoded structured error list. -/
def Resize (doRes : FetchOutcome) (databaseID : String) (capacityUnits : Int) :
    Except String Unit :=
  match doRes with
  | FetchOutcome.transportErr m =>
      Except.error ("failed to unpark database id " ++ databaseID ++ " with: " ++ m)
  | FetchOutcome.resp r =>
    if r.statusCode > 299 then
      match r.body.asErrors with
      | Except.error m => Except.error ("unable to decode error response with error: " ++ m)
      | Except.ok es =>
          Except.error ("expected status code 2xx but had: " ++ toString r.statusCode ++
            " with error(s) - " ++ FormatErrors es)
    else Except.ok ()

/-- CreateDbPayload is the object for submitting a new database. -/
structure CreateDbPayload where
  name : String
  keyspace : String
  capacityUnits : Int
  region : String
  user : String
  password : String
  tier : String
  cloudProvider : String
  deriving DecidableEq

/-- CreateDb creates a database and waits until it is in a created state:
on a 201 response it takes the new id from the location header and polls
WaitUntil with 20 tries at a 5 second interval for status ACTIVE,
returning the poll trace, the id, the final database and an optional error
message; on any other response it returns the empty id, the zero database
and an error. -/
def CreateDb (doRes : FetchOutcome) (fetch : Nat → FetchResult) (payload : CreateDbPayload) :
    List PollEvent × String × Database × Option String :=
  match doRes with
  | FetchOutcome.transportErr m =>
      ([], "", zeroDatabase, some ("failed creating database with: " ++ m))
  | FetchOutcome.resp r =>
    if r.statusCode ≠ 201 then
      match r.body.asErrors with
      | Except.error m =>
          ([], "", zeroDatabase,
           some ("unable to decode error response with error: \x27" ++ m ++
             "\x27. status code was " ++ toString r.statusCode))
      | Except.ok es =>
          ([], "", zeroDatabase,
           some ("expected status code 201 but had: " ++ toString r.statusCode ++
             " error was " ++
             stringsJoin (es.map (fun e => "ID: " ++ toString e.id ++ ", Message: " ++ e.message)) ","))
    else
      match WaitUntil fetch r.location 20 5 ACTIVE with
      | (tr, Except.ok db) => (tr, r.location, db, none)
      | (tr, Except.error m) =>
          (tr, r.location, zeroDatabase,
           some ("create db failed because \x27" ++ m ++ "\x27"))

/-- sampleDb builds a database value with the given status, for concrete
witness runs. -/
def sampleDb (status : StatusEnum) : Database :=
  { id := "db1", orgID := "org1", ownerID := "own1", info := zeroDatabaseInfo,
    creationTime := "", terminationTime := "", status := status, storage := zeroStorage,
    availableActions := [], message := "", studioURL := "", grafanaURL := "",
    cqlshURL := "", graphqlURL := "", dataEndpointURL := "" }

/-- sampleBody is a response body whose Database decode fails and whose
error decode yields the empty list, for concrete witness runs. -/
def sampleBody : RespBody :=
  { asDatabase := Except.error "unexpected end of JSON input", asErrors := Except.ok [] }

/-- dbBody db is a response body that decodes to the given database. -/
def dbBody (db : Database) : RespBody :=
  { asDatabase := Except.ok db, asErrors := Except.error "json: cannot unmarshal" }

/-- accept202 is a concrete 202 accepted response, for witness runs. -/
def accept202 : FetchOutcome :=
  FetchOutcome.resp { statusCode := 202, location := "", body := sampleBody }

/-- resp401 is a concrete 401 unauthorized response, for witness runs. -/
def resp401 : FetchOutcome :=
  FetchOutcome.resp { statusCode := 401, location := "", body := sampleBody }

/-- resp500 is a concrete 500 response with a decodable empty error list,
for witness runs. -/
def resp500 : FetchOutcome :=
  FetchOutcome.resp { statusCode := 500, location := "", body := sampleBody }

/-- resp200db db is a concrete 200 response whose body decodes to db, for
witness runs. -/
def resp200db (db : Database) : FetchOutcome :=
  FetchOutcome.resp { statusCode := 200, location := "", body := dbBody db }

/-- samplePayload is a concrete create-database request payload, for
witness runs. -/
def samplePayload : CreateDbPayload :=
  { name := "mydb", keyspace := "ks", capacityUnits := 1, region := "europe-west1",
    user := "u", password := "p", tier := "free", cloudProvider := "GCP" }

/-- boomBody is a response body carrying one structured error with id 7
and message "boom", for witness runs. -/
def boomBody : RespBody :=
  { asDatabase := Except.error "x", asErrors := Except.ok [{ id := 7, message := "boom" }] }

/-- joinedBySpec renders the specification wording for structured error
formatting: the pieces joined by the separator in their given order. -/
def joinedBySpec (sep : String) : List String → String
  | [] => ""
  | [x] => x
  | x :: y :: rest => x ++ sep ++ joinedBySpec sep (y :: rest)

/-- succeedsTerm f holds when a fetch outcome makes the deletion loop
return success on that attempt: status code 401, or a 200 response whose
body decodes to a database in status TERMINATED or TERMINATING. -/
def succeedsTerm : FetchOutcome → Bool
  | FetchOutcome.transportErr _ => false
  | FetchOutcome.resp r =>
    if r.statusCode = 401 then true
    else if r.statusCode = 200 then
      match r.body.asDatabase with
      | Except.error _ => false
      | Except.ok db =>
          if db.status = TERMINATED ∨ db.status = TERMINATING then true else false
    else false

/-- countFetches of a k-iteration trace is k. -/
theorem countFetches_pollTrace (iv : Int) : ∀ (k i : Nat), countFetches (pollTrace iv i k) = k := by
  intro k
  induction k with
  | zero => intro i; rfl
  | succ k ih => intro i; simp [pollTrace, countFetches, ih (i + 1)]

/-- countSleeps of a k-iteration trace is k. -/
theorem countSleeps_pollTrace (iv : Int) : ∀ (k i : Nat), countSleeps (pollTrace iv i k) = k := by
  intro k
  induction k with
  | zero => intro i; rfl
  | succ k ih => intro i; simp [pollTrace, countSleeps, ih (i + 1)]

/-- sleepSeconds of a k-iteration trace at interval iv is iv * k. -/
theorem sleepSeconds_pollTrace (iv : Int) : ∀ (k i : Nat),
    sleepSeconds (pollTrace iv i k) = iv * k := by
  intro k
  induction k with
  | zero => intro i; simp [pollTrace, sleepSeconds]
  | succ k ih =>
    intro i
    simp only [pollTrace, sleepSeconds, ih (i + 1)]
    push_cast
    ring

/-- A fetch result that misses the target makes the WaitUntil loop record
one sleep and one fetch and continue with one fewer remaining attempt. -/
theorem waitUntilLoop_step (fetch : Nat → FetchResult) (iv : Int) (status : StatusEnum)
    (i n : Nat) (h : missesStatus status (fetch i) = true) :
    waitUntilLoop fetch iv status i (n + 1) =
      (PollEvent.sleep iv :: PollEvent.fetch i :: (waitUntilLoop fetch iv status (i + 1) n).1,
       (waitUntilLoop fetch iv status (i + 1) n).2) := by
  cases hfi : fetch i with
  | ok db =>
    have hne : ¬db.status = status := by
      rw [hfi] at h
      by_contra hc
      simp [missesStatus, hc] at h
    simp [waitUntilLoop, hfi, hne]
  | err m => simp [waitUntilLoop, hfi]

/-- If the first k fetches starting at attempt i miss the target and the
fetch at attempt i + k returns a database with the target status, the
WaitUntil loop succeeds with that database after exactly k + 1 iterations. -/
theorem waitUntilLoop_hit (fetch : Nat → FetchResult) (iv : Int) (status : StatusEnum) :
    ∀ (k i n : Nat) (db : Database),
      (∀ j, j < k → missesStatus status (fetch (i + j)) = true) →
      fetch (i + k) = FetchResult.ok db → db.status = status → k < n →
      waitUntilLoop fetch iv status i n = (pollTrace iv i (k + 1), some db) := by
  intro k
  induction k with
  | zero =>
    intro i n db _ hhit hstat hlt
    obtain ⟨m, rfl⟩ : ∃ m, n = m + 1 := ⟨n - 1, by omega⟩
    rw [Nat.add_zero] at hhit
    simp [waitUntilLoop, hhit, hstat, pollTrace]
  | succ k ih =>
    intro i n db hmiss hhit hstat hlt
    obtain ⟨m, rfl⟩ : ∃ m, n = m + 1 := ⟨n - 1, by omega⟩
    have h0 : missesStatus status (fetch i) = true := by
      have := hmiss 0 (Nat.succ_pos k)
      simpa using this
    rw [waitUntilLoop_step fetch iv status i m h0]
    have hm : ∀ j, j < k → missesStatus status (fetch (i + 1 + j)) = true := by
      intro j hj
      have := hmiss (j + 1) (by omega)
      have he : i + (j + 1) = i + 1 + j := by omega
      rwa [he] at this
    have hh : fetch (i + 1 + k) = FetchResult.ok db := by
      have he : i + (k + 1) = i + 1 + k := by omega
      rwa [he] at hhit
    rw [ih (i + 1) m db hm hh hstat (by omega)]
    rfl

/-- If every fetch in the remaining budget misses the target, the
WaitUntil loop exhausts the budget and returns none. -/
theorem waitUntilLoop_allMiss (fetch : Nat → FetchResult) (iv : Int) (status : StatusEnum) :
    ∀ (n i : Nat), (∀ j, j < n → missesStatus status (fetch (i + j)) = true) →
      waitUntilLoop fetch iv status i n = (pollTrace iv i n, none) := by
  intro n
  induction n with
  | zero => intro i _; rfl
  | succ n ih =>
    intro i hmiss
    have h0 : missesStatus status (fetch i) = true := by
      have := hmiss 0 (Nat.succ_pos n)
      simpa using this
    rw [waitUntilLoop_step fetch iv status i n h0]
    have hm : ∀ j, j < n → missesStatus status (fetch (i + 1 + j)) = true := by
      intro j hj
      have := hmiss (j + 1) (by omega)
      have he : i + (j + 1) = i + 1 + j := by omega
      rwa [he] at this
    rw [ih (i + 1) hm]
    rfl

/-- Whenever the WaitUntil loop returns a database, that database has the
target status. -/
theorem waitUntilLoop_some_status (fetch : Nat → FetchResult) (iv : Int) (status : StatusEnum) :
    ∀ (n i : Nat) (db : Database),
      (waitUntilLoop fetch iv status i n).2 = some db → db.status = status := by
  intro n
  induction n with
  | zero => intro i db h; simp [waitUntilLoop] at h
  | succ n ih =>
    intro i db h
    cases hfi : fetch i with
    | err m =>
      simp only [waitUntilLoop, hfi] at h
      exact ih (i + 1) db h
    | ok db0 =>
      by_cases hs : db0.status = status
      · simp only [waitUntilLoop, hfi, if_pos hs] at h
        obtain rfl : db0 = db := by simpa using h
        exact hs
      · simp only [waitUntilLoop, hfi, if_neg hs] at h
        exact ih (i + 1) db h

/-- WaitUntil-level success lemma: a first match at 1-based attempt N
within the budget returns that database with an N-iteration trace. -/
theorem waitUntil_hit_general (fetch : Nat → FetchResult) (id : String) (tries iv : Int)
    (status : StatusEnum) (N : Nat) (db : Database)
    (hN : 1 ≤ N) (hle : (N : Int) ≤ tries)
    (hmiss : ∀ j, j < N - 1 → missesStatus status (fetch j) = true)
    (hhit : fetch (N - 1) = FetchResult.ok db) (hstat : db.status = status) :
    WaitUntil fetch id tries iv status = (pollTrace iv 0 N, Except.ok db) := by
  have hk : N - 1 < Int.toNat tries := by omega
  have hm : ∀ j, j < N - 1 → missesStatus status (fetch (0 + j)) = true := by
    intro j hj
    simpa using hmiss j hj
  have hh : fetch (0 + (N - 1)) = FetchResult.ok db := by simpa using hhit
  have hloop := waitUntilLoop_hit fetch iv status (N - 1) 0 (Int.toNat tries) db hm hh hstat hk
  have hN1 : N - 1 + 1 = N := by omega
  rw [hN1] at hloop
  simp [WaitUntil, hloop]

/-- A fetch outcome on which the deletion loop continues makes it record
one sleep and one fetch and proceed with one fewer remaining attempt, for
some updated lastResponse and lastStatusCode. -/
theorem terminateLoop_step (fetch : Nat → FetchOutcome) (id : String) (iv : Int)
    (i : Nat) (lr : String) (lsc : Int) (n : Nat)
    (h : continuesTerm (fetch i) = true) :
    ∃ lr2 lsc2,
      terminateLoop fetch id iv i lr lsc (n + 1) =
        (PollEvent.sleep iv :: PollEvent.fetch i ::
          (terminateLoop fetch id iv (i + 1) lr2 lsc2 n).1,
         (terminateLoop fetch id iv (i + 1) lr2 lsc2 n).2) := by
  cases hfi : fetch i with
  | transportErr m =>
    rw [hfi] at h
    simp [continuesTerm] at h
  | resp r =>
    rw [hfi] at h
    by_cases h401 : r.statusCode = 401
    · simp [continuesTerm, h401] at h
    · by_cases h200 : r.statusCode = 200
      · cases hdb : r.body.asDatabase with
        | error m => simp [continuesTerm, h401, h200, hdb] at h
        | ok db =>
          by_cases hterm : db.status = TERMINATED ∨ db.status = TERMINATING
          · simp [continuesTerm, h401, h200, hdb, hterm] at h
          · refine ⟨lr, r.statusCode, ?_⟩
            simp [terminateLoop, hfi, h401, h200, hdb, hterm]
      · refine ⟨readErrorFromResponse r.body r.statusCode [200, 401], r.statusCode, ?_⟩
        simp [terminateLoop, hfi, h401, h200]

/-- If the first k fetches let the deletion loop continue and the fetch at
attempt i + k is a success outcome (401, or 200 with a terminal status),
the loop returns success after exactly k + 1 iterations, whatever budget
remains. -/
theorem terminateLoop_ok_reach (fetch : Nat → FetchOutcome) (id : String) (iv : Int) :
    ∀ (k i : Nat) (lr : String) (lsc : Int) (n : Nat),
      (∀ j, j < k → continuesTerm (fetch (i + j)) = true) →
      succeedsTerm (fetch (i + k)) = true → k < n →
      terminateLoop fetch id iv i lr lsc n = (pollTrace iv i (k + 1), Except.ok ()) := by
  intro k
  induction k with
  | zero =>
    intro i lr lsc n _ hsucc hlt
    obtain ⟨m, rfl⟩ : ∃ m, n = m + 1 := ⟨n - 1, by omega⟩
    rw [Nat.add_zero] at hsucc
    cases hfi : fetch i with
    | transportErr msg =>
      rw [hfi] at hsucc
      simp [succeedsTerm] at hsucc
    | resp r =>
      rw [hfi] at hsucc
      by_cases h401 : r.statusCode = 401
      · simp [terminateLoop, hfi, h401, pollTrace]
      · by_cases h200 : r.statusCode = 200
        · cases hdb : r.body.asDatabase with
          | error m => simp [succeedsTerm, h401, h200, hdb] at hsucc
          | ok db =>
            by_cases hterm : db.status = TERMINATED ∨ db.status = TERMINATING
            · simp [terminateLoop, hfi, h401, h200, hdb, hterm, pollTrace]
            · simp [succeedsTerm, h401, h200, hdb, hterm] at hsucc
        · simp [succeedsTerm, h401, h200] at hsucc
  | succ k ih =>
    intro i lr lsc n hcont hsucc hlt
    obtain ⟨m, rfl⟩ : ∃ m, n = m + 1 := ⟨n - 1, by omega⟩
    have h0 : continuesTerm (fetch i) = true := by
      have := hcont 0 (Nat.succ_pos k)
      simpa using this
    obtain ⟨lr2, lsc2, hstep⟩ := terminateLoop_step fetch id iv i lr lsc m h0
    rw [hstep]
    have hc : ∀ j, j < k → continuesTerm (fetch (i + 1 + j)) = true := by
      intro j hj
      have := hcont (j + 1) (by omega)
      have he : i + (j + 1) = i + 1 + j := by omega
      rwa [he] at this
    have hs : succeedsTerm (fetch (i + 1 + k)) = true := by
      have he : i + (k + 1) = i + 1 + k := by omega
      rwa [he] at hsucc
    rw [ih (i + 1) lr2 lsc2 m hc hs (by omega)]
    rfl

/-- A 200 response decoding to a database in a non-terminal status makes
the deletion loop continue, keeping lastResponse and recording the 200
status code. -/
theorem terminateLoop_continue_200 (fetch : Nat → FetchOutcome) (id : String) (iv : Int)
    (i : Nat) (lr : String) (lsc : Int) (n : Nat) (r : HttpResponse) (db : Database)
    (hfi : fetch i = FetchOutcome.resp r) (h200 : r.statusCode = 200)
    (hdb : r.body.asDatabase = Except.ok db)
    (hterm : ¬(db.status = TERMINATED ∨ db.status = TERMINATING)) :
    terminateLoop fetch id iv i lr lsc (n + 1) =
      (PollEvent.sleep iv :: PollEvent.fetch i ::
        (terminateLoop fetch id iv (i + 1) lr r.statusCode n).1,
       (terminateLoop fetch id iv (i + 1) lr r.statusCode n).2) := by
  have h401 : ¬r.statusCode = 401 := by omega
  simp [terminateLoop, hfi, h401, h200, hdb, hterm]

/-- A response whose status code is neither 401 nor 200 makes the deletion
loop continue, storing the decoded error text and the status code. -/
theorem terminateLoop_continue_other (fetch : Nat → FetchOutcome) (id : String) (iv : Int)
    (i : Nat) (lr : String) (lsc : Int) (n : Nat) (r : HttpResponse)
    (hfi : fetch i = FetchOutcome.resp r) (h401 : ¬r.statusCode = 401)
    (h200 : ¬r.statusCode = 200) :
    terminateLoop fetch id iv i lr lsc (n + 1) =
      (PollEvent.sleep iv :: PollEvent.fetch i ::
        (terminateLoop fetch id iv (i + 1)
          (readErrorFromResponse r.body r.statusCode [200, 401]) r.statusCode n).1,
       (terminateLoop fetch id iv (i + 1)
         (readErrorFromResponse r.body r.statusCode [200, 401]) r.statusCode n).2) := by
  simp [terminateLoop, hfi, h401, h200]

/-- A transport-level fetch error makes the deletion loop return that
error immediately, after a single sleep and fetch. -/
theorem terminateLoop_transport_aborts (fetch : Nat → FetchOutcome) (id : String) (iv : Int)
    (i : Nat) (lr : String) (lsc : Int) (n : Nat) (m : String)
    (hfi : fetch i = FetchOutcome.transportErr m) :
    terminateLoop fetch id iv i lr lsc (n + 1) =
      ([PollEvent.sleep iv, PollEvent.fetch i],
       Except.error ("failed get database id " ++ id ++ " with: " ++ m)) := by
  simp [terminateLoop, hfi]

/-- A 200 response whose body fails to decode as a database makes the
deletion loop return an error immediately. -/
theorem terminateLoop_decode_aborts (fetch : Nat → FetchOutcome) (id : String) (iv : Int)
    (i : Nat) (lr : String) (lsc : Int) (n : Nat) (r : HttpResponse) (m : String)
    (hfi : fetch i = FetchOutcome.resp r) (h200 : r.statusCode = 200)
    (hdb : r.body.asDatabase = Except.error m) :
    terminateLoop fetch id iv i lr lsc (n + 1) =
      ([PollEvent.sleep iv, PollEvent.fetch i],
       Except.error ("critical error trying to get status of database not deleted, unable to decode response with error: " ++ m)) := by
  have h401 : ¬r.statusCode = 401 := by omega
  simp [terminateLoop, hfi, h401, h200, hdb]

/-- Prepending a separator-joined piece to the head of a join. -/
theorem joinedBySpec_append (sep a x : String) :
    ∀ xs : List String,
      joinedBySpec sep ((a ++ sep ++ x) :: xs) = a ++ sep ++ joinedBySpec sep (x :: xs) := by
  intro xs
  cases xs with
  | nil => rfl
  | cons y rest =>
    show (a ++ sep ++ x) ++ sep ++ joinedBySpec sep (y :: rest) =
      a ++ sep ++ (x ++ sep ++ joinedBySpec sep (y :: rest))
    simp [String.append_assoc]

/-- The fold inside stringsJoin computes the specification-style join. -/
theorem foldl_join (sep : String) :
    ∀ (l : List String) (e : String),
      l.foldl (fun acc s => acc ++ sep ++ s) e = joinedBySpec sep (e :: l) := by
  intro l
  induction l with
  | nil => intro e; rfl
  | cons x xs ih =>
    intro e
    show xs.foldl (fun acc s => acc ++ sep ++ s) (e ++ sep ++ x) =
      joinedBySpec sep (e :: x :: xs)
    rw [ih (e ++ sep ++ x), joinedBySpec_append sep e x xs]
    rfl

/-- stringsJoin agrees with the specification-style join. -/
theorem stringsJoin_eq_joinedBySpec (elems : List String) (sep : String) :
    stringsJoin elems sep = joinedBySpec sep elems := by
  cases elems with
  | nil => rfl
  | cons e rest => exact foldl_join sep rest e

/-- C1: for every fetch-result sequence in which the N-th fetch returns
the target status and all earlier fetches return a different status or
fail, with N at most tries, WaitUntil returns the N-th fetched database
successfully after exactly N fetch attempts, performing an interval sleep
before every fetch attempt including the first: N sleeps totalling
intervalSeconds * N seconds, not intervalSeconds * (N - 1). -/
theorem waitUntil_returns_at_first_match (fetch : Nat → FetchResult) (id : String)
    (tries intervalSeconds : Int) (status : StatusEnum) (N : Nat) (db : Database)
    (hN : 1 ≤ N) (hle : (N : Int) ≤ tries)
    (hmiss : ∀ j, j < N - 1 → missesStatus status (fetch j) = true)
    (hhit : fetch (N - 1) = FetchResult.ok db) (hstat : db.status = status) :
    WaitUntil fetch id tries intervalSeconds status =
      (pollTrace intervalSeconds 0 N, Except.ok db) ∧
    countFetches (pollTrace intervalSeconds 0 N) = N ∧
    countSleeps (pollTrace intervalSeconds 0 N) = N ∧
    sleepSeconds (pollTrace intervalSeconds 0 N) = intervalSeconds * N :=
  ⟨waitUntil_hit_general fetch id tries intervalSeconds status N db hN hle hmiss hhit hstat,
   countFetches_pollTrace intervalSeconds N 0, countSleeps_pollTrace intervalSeconds N 0,
   sleepSeconds_pollTrace intervalSeconds N 0⟩

/-- Witness for C1: a concrete run whose first fetch fails and whose
second fetch returns an ACTIVE database, with 3 tries at 7 seconds. -/
theorem waitUntil_returns_at_first_match_witness :
    (fun i => if i = 0 then FetchResult.err "dns failure"
      else FetchResult.ok (sampleDb ACTIVE)) 1 = FetchResult.ok (sampleDb ACTIVE) ∧
    WaitUntil (fun i => if i = 0 then FetchResult.err "dns failure"
      else FetchResult.ok (sampleDb ACTIVE)) "db1" 3 7 ACTIVE =
      (pollTrace 7 0 2, Except.ok (sampleDb ACTIVE)) :=
  ⟨by decide,
   (waitUntil_returns_at_first_match
     (fun i => if i = 0 then FetchResult.err "dns failure"
       else FetchResult.ok (sampleDb ACTIVE))
     "db1" 3 7 ACTIVE 2 (sampleDb ACTIVE)
     (by decide) (by decide) (by decide) (by decide) (by decide)).1⟩

/-- C2: for every fetch-result sequence in which no fetch within the
budget returns the target status, WaitUntil performs exactly tries fetch
attempts and then returns an error naming the database id, the target
status, and the elapsed budget intervalSeconds * tries seconds. -/
theorem waitUntil_timeout_after_all_attempts (fetch : Nat → FetchResult) (id : String)
    (tries intervalSeconds : Int) (status : StatusEnum)
    (htries : 0 ≤ tries)
    (hmiss : ∀ j, j < Int.toNat tries → missesStatus status (fetch j) = true) :
    WaitUntil fetch id tries intervalSeconds status =
      (pollTrace intervalSeconds 0 (Int.toNat tries),
       Except.error ("unable to find db id " ++ id ++ " with status " ++ status ++
         " after " ++ toString (intervalSeconds * tries) ++ " seconds")) ∧
    countFetches (pollTrace intervalSeconds 0 (Int.toNat tries)) = Int.toNat tries ∧
    ((Int.toNat tries : Int) = tries) := by
  have hm : ∀ j, j < Int.toNat tries → missesStatus status (fetch (0 + j)) = true := by
    intro j hj
    simpa using hmiss j hj
  have hloop := waitUntilLoop_allMiss fetch intervalSeconds status (Int.toNat tries) 0 hm
  refine ⟨?_, countFetches_pollTrace _ _ _, by omega⟩
  simp [WaitUntil, hloop]

/-- Witness for C2: a run whose fetches always return PENDING, with 2
tries at 7 seconds waiting for ACTIVE, times out after 14 seconds. -/
theorem waitUntil_timeout_after_all_attempts_witness :
    (0 : Int) ≤ 2 ∧
    WaitUntil (fun _ => FetchResult.ok (sampleDb PENDING)) "db1" 2 7 ACTIVE =
      (pollTrace 7 0 (Int.toNat 2),
       Except.error "unable to find db id db1 with status ACTIVE after 14 seconds") :=
  ⟨by decide,
   (waitUntil_timeout_after_all_attempts (fun _ => FetchResult.ok (sampleDb PENDING))
     "db1" 2 7 ACTIVE (by decide) (by decide)).1⟩

/-- C9: whenever WaitUntil returns without error, the returned database
status is exactly the requested status; it never returns success with a
database in any other state. -/
theorem waitUntil_ok_implies_target_status (fetch : Nat → FetchResult) (id : String)
    (tries intervalSeconds : Int) (status : StatusEnum) (tr : List PollEvent) (db : Database)
    (h : WaitUntil fetch id tries intervalSeconds status = (tr, Except.ok db)) :
    db.status = status := by
  rcases hres : waitUntilLoop fetch intervalSeconds status 0 (Int.toNat tries) with ⟨tr0, od⟩
  cases od with
  | some db0 =>
    have hs := waitUntilLoop_some_status fetch intervalSeconds status (Int.toNat tries) 0 db0
      (by rw [hres])
    simp only [WaitUntil, hres] at h
    obtain ⟨-, h2⟩ := Prod.mk.injEq .. ▸ h
    cases h2
    exact hs
  | none => simp [WaitUntil, hres] at h

/-- Witness for C9: a run that succeeds immediately with an ACTIVE
database indeed reports status ACTIVE. -/
theorem waitUntil_ok_implies_target_status_witness :
    WaitUntil (fun _ => FetchResult.ok (sampleDb ACTIVE)) "db1" 1 0 ACTIVE =
      (pollTrace 0 0 1, Except.ok (sampleDb ACTIVE)) ∧
    (sampleDb ACTIVE).status = ACTIVE :=
  ⟨by decide,
   waitUntil_ok_implies_target_status (fun _ => FetchResult.ok (sampleDb ACTIVE)) "db1" 1 0
     ACTIVE (pollTrace 0 0 1) (sampleDb ACTIVE) (by decide)⟩

/-- C10: when WaitUntil is called with tries at most 0, the loop body
never executes: no fetch is issued and no sleep occurs, and the timeout
error reporting an elapsed budget of intervalSeconds * tries seconds is
returned immediately. -/
theorem waitUntil_nonpositive_tries (fetch : Nat → FetchResult) (id : String)
    (tries intervalSeconds : Int) (status : StatusEnum) (htries : tries ≤ 0) :
    WaitUntil fetch id tries intervalSeconds status =
      ([], Except.error ("unable to find db id " ++ id ++ " with status " ++ status ++
        " after " ++ toString (intervalSeconds * tries) ++ " seconds")) ∧
    countFetches ([] : List PollEvent) = 0 ∧ countSleeps ([] : List PollEvent) = 0 := by
  have h0 : Int.toNat tries = 0 := by omega
  refine ⟨?_, rfl, rfl⟩
  simp [WaitUntil, h0, waitUntilLoop]

/-- Witness for C10: tries of -2 with 7 second intervals returns at once
with an elapsed budget of -14 seconds and an empty trace. -/
theorem waitUntil_nonpositive_tries_witness :
    (-2 : Int) ≤ 0 ∧
    WaitUntil (fun _ => FetchResult.ok (sampleDb ACTIVE)) "db1" (-2) 7 ACTIVE =
      ([], Except.error "unable to find db id db1 with status ACTIVE after -14 seconds") :=
  ⟨by decide,
   (waitUntil_nonpositive_tries (fun _ => FetchResult.ok (sampleDb ACTIVE)) "db1" (-2) 7
     ACTIVE (by decide)).1⟩

/-- C3: in the deletion convergence loop of Terminate, if the poll fetch
at any attempt within the budget returns HTTP status code 401, all
earlier attempts having let the loop continue, Terminate returns success
immediately on that attempt, regardless of how many attempts remain. -/
theorem terminate_returns_on_401 (doRes : FetchOutcome) (fetch : Nat → FetchOutcome)
    (id : String) (preparedStateOnly : Bool) (k : Nat) (r0 r : HttpResponse)
    (hdo : doRes = FetchOutcome.resp r0) (h202 : r0.statusCode = 202)
    (hcont : ∀ j, j < k → continuesTerm (fetch j) = true)
    (hk : fetch k = FetchOutcome.resp r) (h401 : r.statusCode = 401) (hlt : k < 30) :
    Terminate doRes fetch id preparedStateOnly = (pollTrace 10 0 (k + 1), Except.ok ()) := by
  have hsucc : succeedsTerm (fetch (0 + k)) = true := by
    rw [Nat.zero_add, hk]
    simp [succeedsTerm, h401]
  have hc : ∀ j, j < k → continuesTerm (fetch (0 + j)) = true := by
    intro j hj
    simpa using hcont j hj
  have hloop := terminateLoop_ok_reach fetch id 10 k 0 "" 0 30 hc hsucc hlt
  subst hdo
  simp [Terminate, TerminateAsync, h202, hloop]

/-- Witness for C3: a first fetch of 500 is absorbed and a second fetch
of 401 makes Terminate succeed at once on attempt 2 of 30. -/
theorem terminate_returns_on_401_witness :
    continuesTerm resp500 = true ∧
    Terminate accept202 (fun j => if j = 0 then resp500 else resp401) "db1" false =
      (pollTrace 10 0 2, Except.ok ()) :=
  ⟨by decide,
   terminate_returns_on_401 accept202 (fun j => if j = 0 then resp500 else resp401) "db1"
     false 1 { statusCode := 202, location := "", body := sampleBody }
     { statusCode := 401, location := "", body := sampleBody }
     rfl (by decide) (by decide) (by decide) (by decide) (by decide)⟩

/-- C5: the deletion convergence loop of Terminate succeeds on set
membership, not equality to a single status: a 200 response whose
database status is TERMINATED or TERMINATING causes Terminate to return
success on that attempt, and a 200 database in any other status makes the
loop continue to the next attempt. -/
theorem terminate_terminal_status_set (doRes : FetchOutcome) (fetch : Nat → FetchOutcome)
    (id : String) (preparedStateOnly : Bool) (k : Nat) (r0 r : HttpResponse) (db : Database)
    (hdo : doRes = FetchOutcome.resp r0) (h202 : r0.statusCode = 202)
    (hcont : ∀ j, j < k → continuesTerm (fetch j) = true)
    (hk : fetch k = FetchOutcome.resp r) (h200 : r.statusCode = 200)
    (hdb : r.body.asDatabase = Except.ok db) (hlt : k < 30) :
    ((db.status = TERMINATED ∨ db.status = TERMINATING) →
      Terminate doRes fetch id preparedStateOnly = (pollTrace 10 0 (k + 1), Except.ok ())) ∧
    (¬(db.status = TERMINATED ∨ db.status = TERMINATING) →
      ∀ (lr : String) (lsc : Int) (n : Nat),
        terminateLoop fetch id 10 k lr lsc (n + 1) =
          (PollEvent.sleep 10 :: PollEvent.fetch k ::
            (terminateLoop fetch id 10 (k + 1) lr r.statusCode n).1,
           (terminateLoop fetch id 10 (k + 1) lr r.statusCode n).2)) := by
  constructor
  · intro hterm
    have hsucc : succeedsTerm (fetch (0 + k)) = true := by
      rw [Nat.zero_add, hk]
      have h401 : ¬r.statusCode = 401 := by omega
      simp [succeedsTerm, h401, h200, hdb, hterm]
    have hc : ∀ j, j < k → continuesTerm (fetch (0 + j)) = true := by
      intro j hj
      simpa using hcont j hj
    have hloop := terminateLoop_ok_reach fetch id 10 k 0 "" 0 30 hc hsucc hlt
    subst hdo
    simp [Terminate, TerminateAsync, h202, hloop]
  · intro hterm lr lsc n
    exact terminateLoop_continue_200 fetch id 10 k lr lsc n r db hk h200 hdb hterm

/-- Witness for C5: a terminate poll whose first fetch returns a 200
database in status TERMINATING succeeds immediately. -/
theorem terminate_terminal_status_set_witness :
    (sampleDb TERMINATING).status = TERMINATING ∧
    Terminate accept202 (fun _ => resp200db (sampleDb TERMINATING)) "db1" false =
      (pollTrace 10 0 1, Except.ok ()) :=
  ⟨by decide,
   (terminate_terminal_status_set accept202 (fun _ => resp200db (sampleDb TERMINATING)) "db1"
     false 0 { statusCode := 202, location := "", body := sampleBody }
     { statusCode := 200, location := "", body := dbBody (sampleDb TERMINATING) }
     (sampleDb TERMINATING) rfl (by decide) (by decide) (by decide) (by decide) (by decide)
     (by decide)).1 (Or.inr (by decide))⟩

/-- Counterexample to C4: in the deletion loop of Terminate, a
transport-level fetch failure at the first attempt is not absorbed: it
aborts the poll immediately with an error after a single attempt, even
though 29 attempts of the budget remain. -/
theorem terminate_transport_error_aborts :
    Terminate accept202 (fun _ => FetchOutcome.transportErr "connection reset") "db1" false =
      ([PollEvent.sleep 10, PollEvent.fetch 0],
       Except.error "failed get database id db1 with: connection reset") ∧
    countFetches [PollEvent.sleep 10, PollEvent.fetch 0] = 1 :=
  ⟨by decide, by decide⟩

/-- C4 amended: in WaitUntil every fetch failure (transport error,
non-200 response, or decode failure, all surfaced as a FindDb error) is
absorbed, consumes exactly one attempt, and never causes an early return;
in the deletion loop of Terminate only a response with a status code
other than 200 and 401 is absorbed in that way, while a transport-level
error or a decode failure of a 200 body aborts the loop immediately with
an error. -/
theorem poller_failure_absorption :
    (∀ (fetch : Nat → FetchResult) (iv : Int) (status : StatusEnum) (i n : Nat) (m : String),
      fetch i = FetchResult.err m →
      waitUntilLoop fetch iv status i (n + 1) =
        (PollEvent.sleep iv :: PollEvent.fetch i ::
          (waitUntilLoop fetch iv status (i + 1) n).1,
         (waitUntilLoop fetch iv status (i + 1) n).2)) ∧
    (∀ (m id : String), FindDb (FetchOutcome.transportErr m) id =
      Except.error ("failed get database id " ++ id ++ " with: " ++ m)) ∧
    (∀ (r : HttpResponse) (id : String), ¬r.statusCode = 200 →
      FindDb (FetchOutcome.resp r) id =
        Except.error (readErrorFromResponse r.body r.statusCode [200])) ∧
    (∀ (r : HttpResponse) (id m : String), r.statusCode = 200 →
      r.body.asDatabase = Except.error m →
      FindDb (FetchOutcome.resp r) id =
        Except.error ("unable to decode response with error: " ++ m)) ∧
    (∀ (fetch : Nat → FetchOutcome) (id : String) (iv : Int) (i : Nat) (lr : String)
      (lsc : Int) (n : Nat) (r : HttpResponse), fetch i = FetchOutcome.resp r →
      ¬r.statusCode = 401 → ¬r.statusCode = 200 →
      terminateLoop fetch id iv i lr lsc (n + 1) =
        (PollEvent.sleep iv :: PollEvent.fetch i ::
          (terminateLoop fetch id iv (i + 1)
            (readErrorFromResponse r.body r.statusCode [200, 401]) r.statusCode n).1,
         (terminateLoop fetch id iv (i + 1)
           (readErrorFromResponse r.body r.statusCode [200, 401]) r.statusCode n).2)) ∧
    (∀ (fetch : Nat → FetchOutcome) (id : String) (iv : Int) (i : Nat) (lr : String)
      (lsc : Int) (n : Nat) (m : String), fetch i = FetchOutcome.transportErr m →
      terminateLoop fetch id iv i lr lsc (n + 1) =
        ([PollEvent.sleep iv, PollEvent.fetch i],
         Except.error ("failed get database id " ++ id ++ " with: " ++ m))) ∧
    (∀ (fetch : Nat → FetchOutcome) (id : String) (iv : Int) (i : Nat) (lr : String)
      (lsc : Int) (n : Nat) (r : HttpResponse) (m : String), fetch i = FetchOutcome.resp r →
      r.statusCode = 200 → r.body.asDatabase = Except.error m →
      terminateLoop fetch id iv i lr lsc (n + 1) =
        ([PollEvent.sleep iv, PollEvent.fetch i],
         Except.error ("critical error trying to get status of database not deleted, unable to decode response with error: " ++ m))) := by
  refine ⟨?_, ?_, ?_, ?_, ?_, ?_, ?_⟩
  · intro fetch iv status i n m hfi
    have hm : missesStatus status (fetch i) = true := by
      rw [hfi]
      rfl
    exact waitUntilLoop_step fetch iv status i n hm
  · intro m id
    rfl
  · intro r id hne
    simp [FindDb, hne]
  · intro r id m h200 hdb
    simp [FindDb, h200, hdb]
  · intro fetch id iv i lr lsc n r hfi h401 h200
    exact terminateLoop_continue_other fetch id iv i lr lsc n r hfi h401 h200
  · intro fetch id iv i lr lsc n m hfi
    exact terminateLoop_transport_aborts fetch id iv i lr lsc n m hfi
  · intro fetch id iv i lr lsc n r m hfi h200 hdb
    exact terminateLoop_decode_aborts fetch id iv i lr lsc n r m hfi h200 hdb

/-- Witness for the amended C4: a fetch error is absorbed by the
WaitUntil loop at a concrete run, and a concrete transport error makes
the deletion loop abort at once. -/
theorem poller_failure_absorption_witness :
    (waitUntilLoop (fun _ => FetchResult.err "timeout") 7 ACTIVE 0 1 =
      (PollEvent.sleep 7 :: PollEvent.fetch 0 ::
        (waitUntilLoop (fun _ => FetchResult.err "timeout") 7 ACTIVE 1 0).1,
       (waitUntilLoop (fun _ => FetchResult.err "timeout") 7 ACTIVE 1 0).2)) ∧
    (terminateLoop (fun _ => FetchOutcome.transportErr "connection reset") "db1" 10 0 "" 0 1 =
      ([PollEvent.sleep 10, PollEvent.fetch 0],
       Except.error "failed get database id db1 with: connection reset")) :=
  ⟨poller_failure_absorption.1 (fun _ => FetchResult.err "timeout") 7 ACTIVE 0 0 "timeout" rfl,
   poller_failure_absorption.2.2.2.2.2.1 (fun _ => FetchOutcome.transportErr "connection reset")
     "db1" 10 0 "" 0 0 "connection reset" rfl⟩

/-- C6: for every list of structured errors, FormatErrors produces the
string that formats each entry as ID, Text pieces joined by ", "
preserving the input order; on the list with ids 1, 2 and messages "a",
"b" it yields exactly the expected string, and repeated calls on the same
input yield the identical string. -/
theorem formatErrors_join_order :
    (∀ es : List Error,
      FormatErrors es =
        joinedBySpec ", "
          (es.map (fun e => "ID: " ++ toString e.id ++ " Text: \x27" ++ e.message ++ "\x27"))) ∧
    FormatErrors [{ id := 1, message := "a" }, { id := 2, message := "b" }] =
      "ID: 1 Text: \x27a\x27, ID: 2 Text: \x27b\x27" ∧
    (∀ es : List Error, FormatErrors es = FormatErrors es) :=
  ⟨fun _ => stringsJoin_eq_joinedBySpec _ ", ", by decide, fun _ => rfl⟩

/-- Counterexample to C7: Resize treats status code 202 as success even
though 202 is not 200, so returning nil is not equivalent to the status
code being 200. -/
theorem resize_succeeds_on_202 :
    Resize (FetchOutcome.resp { statusCode := 202, location := "", body := sampleBody })
      "db1" 3 = Except.ok () ∧ (202 : Int) ≠ 200 :=
  ⟨by decide, by decide⟩

/-- C7 amended: Resize treats every status code at most 299 as success:
given a response, it returns nil exactly when the status code is at most
299, and for a larger status code whose body decodes to a structured
error list it returns an error carrying the observed status code and the
formatted structured error list. -/
theorem resize_success_iff_le_299 (r : HttpResponse) (databaseID : String)
    (capacityUnits : Int) :
    (Resize (FetchOutcome.resp r) databaseID capacityUnits = Except.ok () ↔
      r.statusCode ≤ 299) ∧
    (∀ es : List Error, 299 < r.statusCode → r.body.asErrors = Except.ok es →
      Resize (FetchOutcome.resp r) databaseID capacityUnits =
        Except.error ("expected status code 2xx but had: " ++ toString r.statusCode ++
          " with error(s) - " ++ FormatErrors es)) := by
  constructor
  · constructor
    · intro h
      by_contra hc
      have hgt : r.statusCode > 299 := by omega
      simp only [Resize] at h
      rw [if_pos hgt] at h
      cases hes : r.body.asErrors with
      | error m =>
        rw [hes] at h
        simp at h
      | ok es =>
        rw [hes] at h
        simp at h
    · intro h
      have hng : ¬r.statusCode > 299 := by omega
      simp only [Resize]
      rw [if_neg hng]
  · intro es hgt hes
    have hgt2 : r.statusCode > 299 := hgt
    simp only [Resize]
    rw [if_pos hgt2, hes]

/-- Witness for the amended C7: a 500 response with one structured error
yields the formatted rejection, and a 202 response yields success. -/
theorem resize_success_iff_le_299_witness :
    Resize (FetchOutcome.resp { statusCode := 500, location := "", body := boomBody }) "db1" 3 =
      Except.error "expected status code 2xx but had: 500 with error(s) - ID: 7 Text: \x27boom\x27" :=
  (resize_success_iff_le_299 { statusCode := 500, location := "", body := boomBody } "db1" 3).2
    [{ id := 7, message := "boom" }] (by decide) (by decide)

/-- C8: when the create request returns 201 with a location header and
the subsequent poll fetches return PENDING, PENDING, then ACTIVE,
CreateDb returns the resource id taken from the location header together
with the final ACTIVE database, after exactly 3 fetch cycles. -/
theorem createDb_location_and_active_after_three (r : HttpResponse)
    (fetch : Nat → FetchResult) (payload : CreateDbPayload) (db0 db1 db2 : Database)
    (h201 : r.statusCode = 201)
    (h0 : fetch 0 = FetchResult.ok db0) (h0s : db0.status = PENDING)
    (h1 : fetch 1 = FetchResult.ok db1) (h1s : db1.status = PENDING)
    (h2 : fetch 2 = FetchResult.ok db2) (h2s : db2.status = ACTIVE) :
    CreateDb (FetchOutcome.resp r) fetch payload =
      (pollTrace 5 0 3, r.location, db2, none) ∧
    countFetches (pollTrace 5 0 3) = 3 := by
  refine ⟨?_, by decide⟩
  have hne : ¬(PENDING = ACTIVE) := by decide
  have hmiss : ∀ j, j < 3 - 1 → missesStatus ACTIVE (fetch j) = true := by
    intro j hj
    match j, hj with
    | 0, _ => simp [missesStatus, h0, h0s, hne]
    | 1, _ => simp [missesStatus, h1, h1s, hne]
  have hwait := waitUntil_hit_general fetch r.location 20 5 ACTIVE 3 db2 (by omega) (by decide)
    hmiss (by simpa using h2) h2s
  have h201ne : ¬r.statusCode ≠ 201 := by omega
  simp only [CreateDb]
  rw [if_neg h201ne, hwait]

/-- Witness for C8: a concrete 201 create response with location db-123
followed by fetches PENDING, PENDING, ACTIVE. -/
theorem createDb_location_and_active_after_three_witness :
    CreateDb (FetchOutcome.resp { statusCode := 201, location := "db-123", body := sampleBody })
      (fun i => if i ≤ 1 then FetchResult.ok (sampleDb PENDING)
        else FetchResult.ok (sampleDb ACTIVE)) samplePayload =
      (pollTrace 5 0 3, "db-123", sampleDb ACTIVE, none) :=
  (createDb_location_and_active_after_three
    { statusCode := 201, location := "db-123", body := sampleBody }
    (fun i => if i ≤ 1 then FetchResult.ok (sampleDb PENDING)
      else FetchResult.ok (sampleDb ACTIVE))
    samplePayload (sampleDb PENDING) (sampleDb PENDING) (sampleDb ACTIVE)
    rfl (by decide) (by decide) (by decide) (by decide) (by decide) (by decide)).1

end AstraOps
